import Mathlib

/-!
Shallow embedding of `app/source/system-registration/src/server.js`.

JavaScript values that are "a string or undefined" are modelled as
`Option String` (`none` = `undefined`).  JavaScript `Error` objects are
modelled by the `JSError` structure (name, message, and the optional
`httpStatus` / `response` properties that the code inspects).  Each
outbound axios call is modelled by an oracle: the result the downstream
service would produce for that call.  Promise chains
`p.then(f).catch(g)` become explicit `Except` plumbing: a rejection of
`p` or a throw inside `f` is routed to `g`.
-/

namespace SysReg

/-- A JavaScript string-or-undefined value. -/
abbrev JsVal := Option String

/-- JavaScript template-literal rendering of a string-or-undefined value. -/
def jsShow : JsVal → String
  | none => "undefined"
  | some s => s

/-- The `data` of an axios error response, as far as the code inspects it
(`err.response?.data?.Error`). -/
structure ErrData where
  Error : JsVal := none
  deriving DecidableEq

/-- The `response` property of an axios error (`err.response`), present only
when the downstream service answered with an error status. -/
structure ErrResponse where
  status : Nat
  data : Option ErrData := none
  deriving DecidableEq

/-- A JavaScript `Error` object with the properties the code reads:
`name`, `message`, `httpStatus` (set by `BadRequestError`), and the axios
`response` (absent on plain errors and on `BadRequestError`). -/
structure JSError where
  name : String
  message : String
  httpStatus : Option Nat := none
  response : Option ErrResponse := none
  deriving DecidableEq

/-- `new BadRequestError(msg)` from the `bad-request-error` package:
name `"BadRequestError"`, default `httpStatus` 400, no `response`. -/
def badRequestError (msg : String) : JSError :=
  { name := "BadRequestError", message := msg, httpStatus := some 400 }

/-- `new Error(msg)`: a plain error, name `"Error"`. -/
def plainError (msg : String) : JSError :=
  { name := "Error", message := msg }

/-- A `TypeError` raised by a property access on `undefined`. -/
def typeError (msg : String) : JSError :=
  { name := "TypeError", message := msg }

/-- The mutable `tenant` object: the request body fields plus the
identity-infrastructure fields attached during registration. -/
structure Tenant where
  id : JsVal := none
  companyName : JsVal := none
  accountName : JsVal := none
  ownerName : JsVal := none
  tier : JsVal := none
  email : JsVal := none
  userName : JsVal := none
  role : JsVal := none
  firstName : JsVal := none
  lastName : JsVal := none
  UserPoolId : JsVal := none
  IdentityPoolId : JsVal := none
  systemAdminRole : JsVal := none
  systemSupportRole : JsVal := none
  trustRole : JsVal := none
  systemAdminPolicy : JsVal := none
  systemSupportPolicy : JsVal := none
  deriving DecidableEq

/-- The 16 random bytes consumed by one call of `uuid/v4`. -/
structure RandomBytes where
  b0 : Nat
  b1 : Nat
  b2 : Nat
  b3 : Nat
  b4 : Nat
  b5 : Nat
  b6 : Nat
  b7 : Nat
  b8 : Nat
  b9 : Nat
  b10 : Nat
  b11 : Nat
  b12 : Nat
  b13 : Nat
  b14 : Nat
  b15 : Nat
  deriving DecidableEq

/-- Lower-case hexadecimal digit character for `n < 16`
(`'0'` is code 48, `'a'` is code 97). -/
def hexChar (n : Nat) : Char :=
  if n < 10 then Char.ofNat (48 + n) else Char.ofNat (87 + n)

/-- The two hex characters of one byte, as rendered by `bytesToUuid`. -/
def byteHex (b : Nat) : List Char :=
  [hexChar (b / 16 % 16), hexChar (b % 16)]

/-- A lower-case hexadecimal digit character. -/
def isHexChar (c : Char) : Bool :=
  c.isDigit || ('a' ≤ c && c ≤ 'f')

/-- `uuidV4()` from `uuid/v4`: the version nibble of byte 6 is forced to 4
(`(b & 0x0f) | 0x40 = b % 16 + 64`) and the variant bits of byte 8 to `10`
(`(b & 0x3f) | 0x80 = b % 64 + 128`); the bytes are rendered as hex pairs
with hyphens after bytes 3, 5, 7 and 9. -/
def uuidV4 (r : RandomBytes) : String :=
  String.mk (byteHex r.b0 ++ byteHex r.b1 ++ byteHex r.b2 ++ byteHex r.b3 ++ ['-'] ++
    byteHex r.b4 ++ byteHex r.b5 ++ ['-'] ++
    byteHex (r.b6 % 16 + 64) ++ byteHex r.b7 ++ ['-'] ++
    byteHex (r.b8 % 64 + 128) ++ byteHex r.b9 ++ ['-'] ++
    byteHex r.b10 ++ byteHex r.b11 ++ byteHex r.b12 ++ byteHex r.b13 ++
    byteHex r.b14 ++ byteHex r.b15)

/-- `s.split('-').join('')`: removes every hyphen character. -/
def stripHyphens (s : String) : String :=
  String.mk (s.data.filter (fun c => c ≠ '-'))

/-- `tenant.id = 'SYSADMIN' + uuidV4(); tenant.id = tenant.id.split('-').join('')`. -/
def makeTenantId (r : RandomBytes) : String :=
  stripHyphens ("SYSADMIN" ++ uuidV4 r)

/-- The tenant after the handler assigned the generated id to the request body. -/
def tenantWithId (body : Tenant) (r : RandomBytes) : Tenant :=
  { body with id := some (makeTenantId r) }

/-- The `data` of a successful `GET {userURL}/pool/{userName}` response. -/
structure GetPoolData where
  userName : JsVal := none
  deriving DecidableEq

/-- A successful axios response for the existence-check GET. -/
structure GetPoolResp where
  data : GetPoolData
  deriving DecidableEq

/-- `res.data.pool.UserPool` of the registration response. -/
structure UserPoolObj where
  Id : JsVal := none
  deriving DecidableEq

/-- `res.data.pool` of the registration response. -/
structure PoolObj where
  UserPool : Option UserPoolObj := none
  deriving DecidableEq

/-- `res.data.identityPool` of the registration response. -/
structure IdentityPoolObj where
  IdentityPoolId : JsVal := none
  deriving DecidableEq

/-- `res.data.role` of the registration response. -/
structure RoleObj where
  systemAdminRole : JsVal := none
  systemSupportRole : JsVal := none
  trustRole : JsVal := none
  deriving DecidableEq

/-- `res.data.policy` of the registration response. -/
structure PolicyObj where
  systemAdminPolicy : JsVal := none
  systemSupportPolicy : JsVal := none
  deriving DecidableEq

/-- The `data` of a successful `POST {userURL}/system` response; each nested
object may be absent (`undefined`). -/
structure RegData where
  pool : Option PoolObj := none
  identityPool : Option IdentityPoolObj := none
  role : Option RoleObj := none
  policy : Option PolicyObj := none
  deriving DecidableEq

/-- A successful axios response for the registration POST. -/
structure RegResp where
  data : RegData
  deriving DecidableEq

/-- The outcome each downstream call would produce if made. -/
structure Oracles where
  getPool : Except JSError GetPoolResp
  register : Except JSError RegResp
  save : Except JSError Unit

/-- An outbound HTTP call made by the workflow, with the payload it carried.
Object-literal payloads are modelled as association lists so that the
presence or absence of a key is observable. -/
inductive Event where
  | getPool (userName : JsVal)
  | registerPost (payload : List (String × JsVal))
  | savePost (record : List (String × JsVal))
  deriving DecidableEq

/-- A response body: plain text (`res.send`) or `res.json({ error: msg })`. -/
inductive RespBody where
  | text (s : String)
  | jsonError (msg : String)
  deriving DecidableEq

/-- An HTTP response sent by this service. -/
structure HttpResponse where
  status : Nat
  body : RespBody
  deriving DecidableEq

/-- The `then` handler of the existence-check GET: throws `BadRequestError`
when the returned `userName` strictly equals the requested one
(`undefined === undefined` is also true). -/
def checkPoolThen (tenant : Tenant) (d : GetPoolData) : Except JSError Unit :=
  if d.userName = tenant.userName then
    Except.error (badRequestError ("Admin user " ++ jsShow tenant.userName ++ " already exists"))
  else
    Except.ok ()

/-- The `catch` handler of `verifyUserDoesntExist`.  Note that
`err.response.body` is not a property axios sets, so the template renders
`undefined` there. -/
def verifyCatch (tenant : Tenant) (err : JSError) : Except JSError Unit :=
  match err.response with
  | some resp =>
    match resp.data with
    | some d =>
      if d.Error = some "User not found" then
        Except.ok ()
      else
        Except.error (plainError ("Failed to check if tenant " ++ jsShow tenant.userName ++
          " exists. Status: " ++ toString resp.status ++ " Body: undefined"))
    | none =>
      Except.error (plainError ("Failed to check if tenant " ++ jsShow tenant.userName ++
        " exists. Error: " ++ err.message))
  | none =>
    Except.error (plainError ("Failed to check if tenant " ++ jsShow tenant.userName ++
      " exists. Error: " ++ err.message))

/-- `verifyUserDoesntExist`: `axios.get(url).then(...).catch(...)`.  A
rejection of the GET, or a throw inside the `then` handler (the
`BadRequestError` conflict case included), is routed to the `catch`
handler. -/
def verifyUserDoesntExist (tenant : Tenant) (getResult : Except JSError GetPoolResp) :
    Except JSError Unit :=
  match getResult with
  | Except.ok resp =>
    match checkPoolThen tenant resp.data with
    | Except.ok u => Except.ok u
    | Except.error e => verifyCatch tenant e
  | Except.error e => verifyCatch tenant e

/-- The object literal POSTed by `registerTenantAdmin`. -/
def regPayloadOf (t : Tenant) : List (String × JsVal) :=
  [("tenant_id", t.id), ("companyName", t.companyName), ("accountName", t.accountName),
   ("ownerName", t.ownerName), ("tier", t.tier), ("email", t.email),
   ("userName", t.userName), ("role", t.role), ("firstName", t.firstName),
   ("lastName", t.lastName)]

/-- The `then` handler of the registration POST: reads the nested objects and
attaches their sub-fields to the tenant.  A property access on an absent
(`undefined`) object throws a `TypeError`, in the evaluation order of the
assignments; absent leaf fields are attached as `undefined` without error. -/
def extractInfra (tenant : Tenant) (d : RegData) : Except JSError Tenant :=
  match d.pool with
  | none => Except.error (typeError "Cannot read property 'UserPool' of undefined")
  | some pool =>
    match pool.UserPool with
    | none => Except.error (typeError "Cannot read property 'Id' of undefined")
    | some up =>
      match d.identityPool with
      | none => Except.error (typeError "Cannot read property 'IdentityPoolId' of undefined")
      | some ip =>
        match d.role with
        | none => Except.error (typeError "Cannot read property 'systemAdminRole' of undefined")
        | some ro =>
          match d.policy with
          | none => Except.error (typeError "Cannot read property 'systemAdminPolicy' of undefined")
          | some po =>
            Except.ok { tenant with
              UserPoolId := up.Id,
              IdentityPoolId := ip.IdentityPoolId,
              systemAdminRole := ro.systemAdminRole,
              systemSupportRole := ro.systemSupportRole,
              trustRole := ro.trustRole,
              systemAdminPolicy := po.systemAdminPolicy,
              systemSupportPolicy := po.systemSupportPolicy }

/-- `registerTenantAdmin`: POST then extract; any failure (rejection or throw
in the `then` handler) is wrapped as a plain error with the downstream
message. -/
def registerTenantAdmin (tenant : Tenant) (postResult : Except JSError RegResp) :
    Except JSError Tenant :=
  match postResult with
  | Except.ok resp =>
    match extractInfra tenant resp.data with
    | Except.ok t => Except.ok t
    | Except.error e =>
      Except.error (plainError ("Error registering new system admin user: " ++ e.message))
  | Except.error e =>
    Except.error (plainError ("Error registering new system admin user: " ++ e.message))

/-- The object literal POSTed by `saveTenantData` to the tenant-management
service. -/
def saveRecordOf (t : Tenant) : List (String × JsVal) :=
  [("id", t.id), ("companyName", t.companyName), ("accountName", t.accountName),
   ("ownerName", t.ownerName), ("tier", t.tier), ("email", t.email),
   ("status", some "Active"),
   ("UserPoolId", t.UserPoolId), ("IdentityPoolId", t.IdentityPoolId),
   ("systemAdminRole", t.systemAdminRole), ("systemSupportRole", t.systemSupportRole),
   ("trustRole", t.trustRole), ("systemAdminPolicy", t.systemAdminPolicy),
   ("systemSupportPolicy", t.systemSupportPolicy), ("userName", t.userName)]

/-- `saveTenantData`: POST the record; a rejection is wrapped as a plain
error with the downstream message. -/
def saveTenantData (postResult : Except JSError Unit) : Except JSError Unit :=
  match postResult with
  | Except.ok _ => Except.ok ()
  | Except.error e =>
    Except.error (plainError ("Failed to save tenant data.  Error: " ++ e.message))

/-- The error middleware: a `BadRequestError` is answered with its
`httpStatus` and `{ error: message }`; every other error gets a generic
500 `Server Error`. -/
def errorMiddleware (err : JSError) : HttpResponse :=
  if err.name = "BadRequestError" then
    { status := err.httpStatus.getD 400, body := RespBody.jsonError err.message }
  else
    { status := 500, body := RespBody.text "Server Error" }

/-- The observable outcome of one `POST /sys/admin` request: the outbound
calls made, in order, and the HTTP response sent. -/
structure RunResult where
  events : List Event
  response : HttpResponse
  deriving DecidableEq

/-- The `POST /sys/admin` handler: assign the generated id, then the promise
chain existence check → registration → persistence, any rejection going to
`next(err)` and hence the error middleware. -/
def postSysAdmin (body : Tenant) (rb : RandomBytes) (o : Oracles) : RunResult :=
  match verifyUserDoesntExist (tenantWithId body rb) o.getPool with
  | Except.error e =>
    { events := [Event.getPool (tenantWithId body rb).userName], response := errorMiddleware e }
  | Except.ok _ =>
    match registerTenantAdmin (tenantWithId body rb) o.register with
    | Except.error e =>
      { events := [Event.getPool (tenantWithId body rb).userName,
                   Event.registerPost (regPayloadOf (tenantWithId body rb))],
        response := errorMiddleware e }
    | Except.ok registeredTenant =>
      match saveTenantData o.save with
      | Except.error e =>
        { events := [Event.getPool (tenantWithId body rb).userName,
                     Event.registerPost (regPayloadOf (tenantWithId body rb)),
                     Event.savePost (saveRecordOf registeredTenant)],
          response := errorMiddleware e }
      | Except.ok _ =>
        { events := [Event.getPool (tenantWithId body rb).userName,
                     Event.registerPost (regPayloadOf (tenantWithId body rb)),
                     Event.savePost (saveRecordOf registeredTenant)],
          response := { status := 200,
                        body := RespBody.text ("System admin user " ++
                          jsShow (tenantWithId body rb).id ++ " registered") } }

/-- `deleteInfra`: the downstream DELETE; a rejection is caught, logged, and
swallowed, so the returned promise always resolves. -/
def deleteInfra (r : Except JSError Unit) : Except JSError Unit × List String :=
  match r with
  | Except.ok _ => (Except.ok (), ["Removed Infrastructure"])
  | Except.error e => (Except.ok (), ["Error Removing Infrastructure: " ++ e.message])

/-- The observable outcome of one `DELETE /sys/admin` request. -/
structure DeleteRun where
  response : HttpResponse
  log : List String
  deriving DecidableEq

/-- The `DELETE /sys/admin` handler: `deleteInfra().then(...).then(...)`
responding 200, with a `catch` responding 400. -/
def deleteSysAdmin (r : Except JSError Unit) : DeleteRun :=
  match deleteInfra r with
  | (Except.ok _, log) =>
    { response := { status := 200, body := RespBody.text "System Infrastructure & Tables removed" },
      log := log ++ ["Delete Infra", "System Infrastructure & Tables removed"] }
  | (Except.error _, log) =>
    { response := { status := 400, body := RespBody.text " Error removing system" },
      log := log ++ ["Error removing system"] }

/-- The three CORS headers set on every request. -/
def corsHeaders : List (String × String) :=
  [("Access-Control-Allow-Origin", "*"),
   ("Access-Control-Allow-Methods", "GET, POST, OPTIONS, PUT, PATCH, DELETE"),
   ("Access-Control-Allow-Headers", "Content-Type, Origin, X-Amz-Date, Authorization, X-Api-Key, X-Amz-Security-Token, Access-Control-Allow-Headers, X-Requested-With, Access-Control-Allow-Origin")]

/-- `res.send(200)` under Express 4: the deprecated numeric form sets the
status to 200 and sends the status message `"OK"` as the body. -/
def resSend200 : HttpResponse :=
  { status := 200, body := RespBody.text "OK" }

/-- What the CORS middleware does for one request. -/
structure CorsStep where
  headers : List (String × String)
  shortCircuit : Option HttpResponse
  deriving DecidableEq

/-- The CORS middleware: set the three headers on every request; intercept
the `OPTIONS` method with `res.send(200)`, otherwise continue. -/
def corsMiddleware (method : String) : CorsStep :=
  { headers := corsHeaders,
    shortCircuit := if method = "OPTIONS" then some resSend200 else none }

/-! ## Concrete scenario data for witnesses and counterexamples -/

/-- A concrete create request with every input field present. -/
def sampleBody : Tenant :=
  { companyName := some "Acme", accountName := some "acme", ownerName := some "Owner",
    tier := some "gold", email := some "alice@acme.example", userName := some "alice",
    role := some "SystemAdmin", firstName := some "Jane", lastName := some "Doe" }

/-- Sixteen zero random bytes. -/
def zeroBytes : RandomBytes := ⟨0, 0, 0, 0, 0, 0, 0, 0, 0, 0, 0, 0, 0, 0, 0, 0⟩

/-- A downstream rejection of the existence check carrying the
`"User not found"` error body. -/
def notFoundErr : JSError :=
  { name := "Error", message := "Request failed with status code 404",
    response := some { status := 404, data := some { Error := some "User not found" } } }

/-- A fully populated registration response body. -/
def sampleRegData : RegData :=
  { pool := some { UserPool := some { Id := some "P1" } },
    identityPool := some { IdentityPoolId := some "I1" },
    role := some { systemAdminRole := some "R1", systemSupportRole := some "R2",
                   trustRole := some "R3" },
    policy := some { systemAdminPolicy := some "PO1", systemSupportPolicy := some "PO2" } }

/-- Downstream outcomes for a fully successful run: the existence check
reports "User not found", registration and persistence succeed. -/
def happyOracles : Oracles :=
  { getPool := Except.error notFoundErr,
    register := Except.ok { data := sampleRegData },
    save := Except.ok () }

/-- The tenant as enriched by the fully successful run on `sampleBody`. -/
def enrichedTenant : Tenant :=
  { sampleBody with
    id := some (makeTenantId zeroBytes),
    UserPoolId := some "P1", IdentityPoolId := some "I1",
    systemAdminRole := some "R1", systemSupportRole := some "R2", trustRole := some "R3",
    systemAdminPolicy := some "PO1", systemSupportPolicy := some "PO2" }

/-! ## Helper lemmas -/

theorem verifyCatch_error_name (t : Tenant) (e u : JSError)
    (h : verifyCatch t e = Except.error u) : u.name = "Error" := by
  unfold verifyCatch at h
  split at h
  · split at h
    · split at h
      · exact Except.noConfusion h
      · injection h with h; exact h ▸ rfl
    · injection h with h; exact h ▸ rfl
  · injection h with h; exact h ▸ rfl

theorem verify_error_name (t : Tenant) (g : Except JSError GetPoolResp) (u : JSError)
    (h : verifyUserDoesntExist t g = Except.error u) : u.name = "Error" := by
  cases g with
  | ok resp =>
    simp only [verifyUserDoesntExist] at h
    cases hc : checkPoolThen t resp.data with
    | ok v => rw [hc] at h; exact Except.noConfusion h
    | error e => rw [hc] at h; exact verifyCatch_error_name t e u h
  | error e =>
    simp only [verifyUserDoesntExist] at h
    exact verifyCatch_error_name t e u h

theorem register_error_name (t : Tenant) (p : Except JSError RegResp) (u : JSError)
    (h : registerTenantAdmin t p = Except.error u) : u.name = "Error" := by
  unfold registerTenantAdmin at h
  split at h
  · split at h
    · exact Except.noConfusion h
    · injection h with h; exact h ▸ rfl
  · injection h with h; exact h ▸ rfl

theorem save_error_name (p : Except JSError Unit) (u : JSError)
    (h : saveTenantData p = Except.error u) : u.name = "Error" := by
  unfold saveTenantData at h
  split at h
  · exact Except.noConfusion h
  · injection h with h; exact h ▸ rfl

theorem errorMiddleware_plain (e : JSError) (h : e.name = "Error") :
    errorMiddleware e = { status := 500, body := RespBody.text "Server Error" } := by
  unfold errorMiddleware
  rw [if_neg (by rw [h]; decide)]

theorem extract_ok_inv (t t2 : Tenant) (d : RegData)
    (h : extractInfra t d = Except.ok t2) :
    ∃ pool up ip ro po,
      d.pool = some pool ∧ pool.UserPool = some up ∧ d.identityPool = some ip ∧
      d.role = some ro ∧ d.policy = some po ∧
      t2 = { t with
        UserPoolId := up.Id, IdentityPoolId := ip.IdentityPoolId,
        systemAdminRole := ro.systemAdminRole, systemSupportRole := ro.systemSupportRole,
        trustRole := ro.trustRole, systemAdminPolicy := po.systemAdminPolicy,
        systemSupportPolicy := po.systemSupportPolicy } := by
  obtain ⟨dp, dip, dro, dpo⟩ := d
  cases dp with
  | none => exact Except.noConfusion h
  | some pool =>
    obtain ⟨pUP⟩ := pool
    cases pUP with
    | none => exact Except.noConfusion h
    | some up =>
      cases dip with
      | none => exact Except.noConfusion h
      | some ip =>
        cases dro with
        | none => exact Except.noConfusion h
        | some ro =>
          cases dpo with
          | none => exact Except.noConfusion h
          | some po =>
            injection h with h
            exact ⟨⟨some up⟩, up, ip, ro, po, rfl, rfl, rfl, rfl, rfl, h.symm⟩

theorem register_ok_inv (t t2 : Tenant) (p : Except JSError RegResp)
    (h : registerTenantAdmin t p = Except.ok t2) :
    ∃ resp, p = Except.ok resp ∧ extractInfra t resp.data = Except.ok t2 := by
  cases p with
  | error e => exact Except.noConfusion h
  | ok resp =>
    simp only [registerTenantAdmin] at h
    cases he : extractInfra t resp.data with
    | error e => rw [he] at h; exact Except.noConfusion h
    | ok t3 =>
      rw [he] at h
      injection h with h
      exact ⟨resp, rfl, h ▸ he⟩

theorem postSysAdmin_events_shape (body : Tenant) (rb : RandomBytes) (o : Oracles) :
    (∃ u, verifyUserDoesntExist (tenantWithId body rb) o.getPool = Except.error u ∧
      (postSysAdmin body rb o).events = [Event.getPool (tenantWithId body rb).userName]) ∨
    (verifyUserDoesntExist (tenantWithId body rb) o.getPool = Except.ok () ∧
      ((∃ u, registerTenantAdmin (tenantWithId body rb) o.register = Except.error u ∧
        (postSysAdmin body rb o).events =
          [Event.getPool (tenantWithId body rb).userName,
           Event.registerPost (regPayloadOf (tenantWithId body rb))]) ∨
       (∃ t2, registerTenantAdmin (tenantWithId body rb) o.register = Except.ok t2 ∧
        (postSysAdmin body rb o).events =
          [Event.getPool (tenantWithId body rb).userName,
           Event.registerPost (regPayloadOf (tenantWithId body rb)),
           Event.savePost (saveRecordOf t2)]))) := by
  unfold postSysAdmin
  cases hv : verifyUserDoesntExist (tenantWithId body rb) o.getPool with
  | error e => exact Or.inl ⟨e, rfl, rfl⟩
  | ok u =>
    cases hr : registerTenantAdmin (tenantWithId body rb) o.register with
    | error e => exact Or.inr ⟨rfl, Or.inl ⟨e, rfl, rfl⟩⟩
    | ok t2 =>
      cases hs : saveTenantData o.save with
      | error e => exact Or.inr ⟨rfl, Or.inr ⟨t2, rfl, rfl⟩⟩
      | ok w => exact Or.inr ⟨rfl, Or.inr ⟨t2, rfl, rfl⟩⟩

theorem verifyCatch_user_not_found (t : Tenant) (e : JSError) (r : ErrResponse) (d : ErrData)
    (hr : e.response = some r) (hd : r.data = some d)
    (hE : d.Error = some "User not found") :
    verifyCatch t e = Except.ok () := by
  unfold verifyCatch
  simp [hr, hd, hE]

/-! ## Claim theorems -/

/-- C1: the claim says the conflict case (existence check returns the
requested userName) yields HTTP 400 with `{error: "Admin user alice
already exists"}`.  On the code, the `BadRequestError` thrown in the
`then` handler is caught by `verifyUserDoesntExist`'s own `catch` (it has
no `response` property) and rewrapped as a plain `Error`, so the error
middleware answers 500 `Server Error` instead.  Registration and
persistence are indeed not invoked: the only outbound call is the
existence-check GET. -/
theorem c1_conflict_collapses_to_500 :
    postSysAdmin { userName := some "alice" } ⟨0, 0, 0, 0, 0, 0, 0, 0, 0, 0, 0, 0, 0, 0, 0, 0⟩
      { getPool := Except.ok { data := { userName := some "alice" } },
        register := Except.ok { data := {} },
        save := Except.ok () } =
    { events := [Event.getPool (some "alice")],
      response := { status := 500, body := RespBody.text "Server Error" } } := by
  decide

/-- C2: every error raised during the create workflow collapses to the
generic 500 `Server Error` response — but this holds for the `Conflict`
case as well: no run of the handler ever produces the 400 `{error: ...}`
response, because every rejection reaching the error middleware has been
rewrapped as a plain `Error` by one of the stage handlers. -/
theorem c2_all_errors_collapse_to_500 (body : Tenant) (rb : RandomBytes) (o : Oracles) :
    (postSysAdmin body rb o).response.status = 200 ∨
    (postSysAdmin body rb o).response = { status := 500, body := RespBody.text "Server Error" } := by
  unfold postSysAdmin
  cases hv : verifyUserDoesntExist (tenantWithId body rb) o.getPool with
  | error e => right; exact errorMiddleware_plain e (verify_error_name _ _ _ hv)
  | ok u =>
    cases hr : registerTenantAdmin (tenantWithId body rb) o.register with
    | error e => right; exact errorMiddleware_plain e (register_error_name _ _ _ hr)
    | ok t2 =>
      cases hs : saveTenantData o.save with
      | error e => right; exact errorMiddleware_plain e (save_error_name _ _ hs)
      | ok w => left; rfl

/-- C8: a destroy request reports success (HTTP 200, the removal
confirmation text) even when the downstream infrastructure-deletion call
rejects; the downstream failure is logged and never propagated. -/
theorem c8_destroy_lenient (e : JSError) :
    (deleteSysAdmin (Except.error e)).response =
      { status := 200, body := RespBody.text "System Infrastructure & Tables removed" } ∧
    ("Error Removing Infrastructure: " ++ e.message) ∈ (deleteSysAdmin (Except.error e)).log := by
  constructor
  · rfl
  · simp [deleteSysAdmin, deleteInfra]

/-- C10: `deleteInfra` swallows its own downstream rejection and always
resolves, so the 400 branch of the DELETE handler is unreachable and the
destroy endpoint responds 200 for every outcome of the downstream call. -/
theorem c10_delete_400_unreachable (r : Except JSError Unit) :
    (deleteInfra r).1 = Except.ok () ∧ (deleteSysAdmin r).response.status = 200 := by
  cases r <;> exact ⟨rfl, rfl⟩

/-- C3: whenever a record is submitted to the tenant-management service and
the registration response carried `pool.UserPool.Id = "P1"`,
`identityPool.IdentityPoolId = "I1"`, `role.systemAdminRole = "R1"` and
`policy.systemAdminPolicy = "PO1"`, the submitted record contains
`UserPoolId = "P1"`, `IdentityPoolId = "I1"`, `systemAdminRole = "R1"`,
`systemAdminPolicy = "PO1"` and `status = "Active"`. -/
theorem c3_mapped_fields_persisted (body : Tenant) (rb : RandomBytes) (o : Oracles)
    (rec : List (String × JsVal))
    (hmem : Event.savePost rec ∈ (postSysAdmin body rb o).events)
    (resp : RegResp) (hreg : o.register = Except.ok resp)
    (pool : PoolObj) (up : UserPoolObj) (ip : IdentityPoolObj) (ro : RoleObj) (po : PolicyObj)
    (hpool : resp.data.pool = some pool) (hup : pool.UserPool = some up)
    (hipool : resp.data.identityPool = some ip) (hrole : resp.data.role = some ro)
    (hpolicy : resp.data.policy = some po)
    (hid : up.Id = some "P1") (hipid : ip.IdentityPoolId = some "I1")
    (hrole1 : ro.systemAdminRole = some "R1") (hpol1 : po.systemAdminPolicy = some "PO1") :
    rec.lookup "UserPoolId" = some (some "P1") ∧
    rec.lookup "IdentityPoolId" = some (some "I1") ∧
    rec.lookup "systemAdminRole" = some (some "R1") ∧
    rec.lookup "systemAdminPolicy" = some (some "PO1") ∧
    rec.lookup "status" = some (some "Active") := by
  rcases postSysAdmin_events_shape body rb o with
    ⟨u, hv, hev⟩ | ⟨hv, ⟨u, hr, hev⟩ | ⟨t2, hr, hev⟩⟩
  · rw [hev] at hmem
    simp at hmem
  · rw [hev] at hmem
    simp at hmem
  · rw [hev] at hmem
    have hrec : rec = saveRecordOf t2 := by
      simp only [List.mem_cons, List.not_mem_nil, or_false] at hmem
      rcases hmem with h | h | h
      · exact Event.noConfusion h
      · exact Event.noConfusion h
      · injection h with h
    obtain ⟨resp2, hp2, hex⟩ := register_ok_inv _ _ _ hr
    rw [hreg] at hp2
    injection hp2 with hp2
    subst hp2
    obtain ⟨pool2, up2, ip2, ro2, po2, h1, h2, h3, h4, h5, ht2⟩ := extract_ok_inv _ _ _ hex
    rw [hpool] at h1
    injection h1 with h1
    subst h1
    rw [hup] at h2
    injection h2 with h2
    subst h2
    rw [hipool] at h3
    injection h3 with h3
    subst h3
    rw [hrole] at h4
    injection h4 with h4
    subst h4
    rw [hpolicy] at h5
    injection h5 with h5
    subst h5
    subst ht2
    subst hrec
    exact ⟨congrArg some hid, congrArg some hipid, congrArg some hrole1,
      congrArg some hpol1, rfl⟩

/-- C3 witness: the theorem applied to the concrete successful run. -/
theorem c3_mapped_fields_persisted_witness :
    (saveRecordOf enrichedTenant).lookup "UserPoolId" = some (some "P1") ∧
    (saveRecordOf enrichedTenant).lookup "IdentityPoolId" = some (some "I1") ∧
    (saveRecordOf enrichedTenant).lookup "systemAdminRole" = some (some "R1") ∧
    (saveRecordOf enrichedTenant).lookup "systemAdminPolicy" = some (some "PO1") ∧
    (saveRecordOf enrichedTenant).lookup "status" = some (some "Active") :=
  c3_mapped_fields_persisted sampleBody zeroBytes happyOracles (saveRecordOf enrichedTenant)
    (by decide) { data := sampleRegData } rfl
    _ _ _ _ _ rfl rfl rfl rfl rfl rfl rfl rfl rfl

/-- C4 counterexample: in a fully successful run whose request includes
`role`, `firstName` and `lastName`, the record POSTed to the
tenant-management service omits all three keys, so it does not contain all
of the registration request fields. -/
theorem c4_record_omits_request_fields :
    Event.savePost (saveRecordOf enrichedTenant) ∈
      (postSysAdmin sampleBody zeroBytes happyOracles).events ∧
    sampleBody.role = some "SystemAdmin" ∧
    sampleBody.firstName = some "Jane" ∧
    sampleBody.lastName = some "Doe" ∧
    (saveRecordOf enrichedTenant).lookup "role" = none ∧
    (saveRecordOf enrichedTenant).lookup "firstName" = none ∧
    (saveRecordOf enrichedTenant).lookup "lastName" = none := by
  refine ⟨?_, rfl, rfl, rfl, rfl, rfl, rfl⟩
  decide

/-- C4 (amended): the record persisted on a successful run contains the
request fields companyName, accountName, ownerName, tier, email and
userName — but not role, firstName or lastName, which are omitted — plus
the generated id, the identity-infrastructure fields extracted at
registration, and status fixed to "Active". -/
theorem c4_persisted_record_contents (body : Tenant) (rb : RandomBytes) (o : Oracles)
    (rec : List (String × JsVal))
    (hmem : Event.savePost rec ∈ (postSysAdmin body rb o).events) :
    ∃ t2, registerTenantAdmin (tenantWithId body rb) o.register = Except.ok t2 ∧
      rec = saveRecordOf t2 ∧
      rec.lookup "id" = some (some (makeTenantId rb)) ∧
      rec.lookup "companyName" = some body.companyName ∧
      rec.lookup "accountName" = some body.accountName ∧
      rec.lookup "ownerName" = some body.ownerName ∧
      rec.lookup "tier" = some body.tier ∧
      rec.lookup "email" = some body.email ∧
      rec.lookup "userName" = some body.userName ∧
      rec.lookup "status" = some (some "Active") ∧
      rec.lookup "UserPoolId" = some t2.UserPoolId ∧
      rec.lookup "IdentityPoolId" = some t2.IdentityPoolId ∧
      rec.lookup "systemAdminRole" = some t2.systemAdminRole ∧
      rec.lookup "systemSupportRole" = some t2.systemSupportRole ∧
      rec.lookup "trustRole" = some t2.trustRole ∧
      rec.lookup "systemAdminPolicy" = some t2.systemAdminPolicy ∧
      rec.lookup "systemSupportPolicy" = some t2.systemSupportPolicy ∧
      rec.lookup "role" = none ∧
      rec.lookup "firstName" = none ∧
      rec.lookup "lastName" = none := by
  rcases postSysAdmin_events_shape body rb o with
    ⟨u, hv, hev⟩ | ⟨hv, ⟨u, hr, hev⟩ | ⟨t2, hr, hev⟩⟩
  · rw [hev] at hmem
    simp at hmem
  · rw [hev] at hmem
    simp at hmem
  · rw [hev] at hmem
    have hrec : rec = saveRecordOf t2 := by
      simp only [List.mem_cons, List.not_mem_nil, or_false] at hmem
      rcases hmem with h | h | h
      · exact Event.noConfusion h
      · exact Event.noConfusion h
      · injection h with h
    obtain ⟨resp2, hp2, hex⟩ := register_ok_inv _ _ _ hr
    obtain ⟨pool2, up2, ip2, ro2, po2, h1, h2, h3, h4, h5, ht2⟩ := extract_ok_inv _ _ _ hex
    subst ht2
    subst hrec
    exact ⟨_, hr, rfl, rfl, rfl, rfl, rfl, rfl, rfl, rfl, rfl, rfl, rfl, rfl, rfl, rfl,
      rfl, rfl, rfl, rfl, rfl⟩

/-- C4 witness: the amended theorem applied to the concrete successful run. -/
theorem c4_persisted_record_contents_witness :
    ∃ t2, registerTenantAdmin (tenantWithId sampleBody zeroBytes) happyOracles.register =
        Except.ok t2 ∧
      saveRecordOf enrichedTenant = saveRecordOf t2 ∧
      (saveRecordOf enrichedTenant).lookup "id" = some (some (makeTenantId zeroBytes)) ∧
      (saveRecordOf enrichedTenant).lookup "companyName" = some sampleBody.companyName ∧
      (saveRecordOf enrichedTenant).lookup "accountName" = some sampleBody.accountName ∧
      (saveRecordOf enrichedTenant).lookup "ownerName" = some sampleBody.ownerName ∧
      (saveRecordOf enrichedTenant).lookup "tier" = some sampleBody.tier ∧
      (saveRecordOf enrichedTenant).lookup "email" = some sampleBody.email ∧
      (saveRecordOf enrichedTenant).lookup "userName" = some sampleBody.userName ∧
      (saveRecordOf enrichedTenant).lookup "status" = some (some "Active") ∧
      (saveRecordOf enrichedTenant).lookup "UserPoolId" = some t2.UserPoolId ∧
      (saveRecordOf enrichedTenant).lookup "IdentityPoolId" = some t2.IdentityPoolId ∧
      (saveRecordOf enrichedTenant).lookup "systemAdminRole" = some t2.systemAdminRole ∧
      (saveRecordOf enrichedTenant).lookup "systemSupportRole" = some t2.systemSupportRole ∧
      (saveRecordOf enrichedTenant).lookup "trustRole" = some t2.trustRole ∧
      (saveRecordOf enrichedTenant).lookup "systemAdminPolicy" = some t2.systemAdminPolicy ∧
      (saveRecordOf enrichedTenant).lookup "systemSupportPolicy" = some t2.systemSupportPolicy ∧
      (saveRecordOf enrichedTenant).lookup "role" = none ∧
      (saveRecordOf enrichedTenant).lookup "firstName" = none ∧
      (saveRecordOf enrichedTenant).lookup "lastName" = none :=
  c4_persisted_record_contents sampleBody zeroBytes happyOracles
    (saveRecordOf enrichedTenant) (by decide)

/-- C5: when the existence check rejects with a downstream error body whose
`Error` field equals "User not found", the check is treated as success and
the workflow proceeds to the registration POST. -/
theorem c5_user_not_found_proceeds (body : Tenant) (rb : RandomBytes) (o : Oracles)
    (e : JSError) (r : ErrResponse) (d : ErrData)
    (hg : o.getPool = Except.error e) (hr : e.response = some r) (hd : r.data = some d)
    (hE : d.Error = some "User not found") :
    verifyUserDoesntExist (tenantWithId body rb) o.getPool = Except.ok () ∧
    Event.registerPost (regPayloadOf (tenantWithId body rb)) ∈
      (postSysAdmin body rb o).events := by
  have hv : verifyUserDoesntExist (tenantWithId body rb) o.getPool = Except.ok () := by
    rw [hg]
    exact verifyCatch_user_not_found _ _ _ _ hr hd hE
  refine ⟨hv, ?_⟩
  rcases postSysAdmin_events_shape body rb o with
    ⟨u, hveq, hev⟩ | ⟨hveq, ⟨u, hreq, hev⟩ | ⟨t2, hreq, hev⟩⟩
  · rw [hv] at hveq
    exact Except.noConfusion hveq
  · rw [hev]
    simp
  · rw [hev]
    simp

/-- C5 witness: the theorem applied to the concrete "User not found"
rejection. -/
theorem c5_user_not_found_proceeds_witness :
    verifyUserDoesntExist (tenantWithId sampleBody zeroBytes) happyOracles.getPool =
      Except.ok () ∧
    Event.registerPost (regPayloadOf (tenantWithId sampleBody zeroBytes)) ∈
      (postSysAdmin sampleBody zeroBytes happyOracles).events :=
  c5_user_not_found_proceeds sampleBody zeroBytes happyOracles notFoundErr
    { status := 404, data := some { Error := some "User not found" } }
    { Error := some "User not found" } rfl rfl rfl rfl

/-- C7: a record is persisted only when the existence check succeeded and the
registration succeeded with all required nested infrastructure objects
present in its response, and then the outbound calls are exactly the
existence check, the registration and the persistence, in that order. -/
theorem c7_persistence_after_registration (body : Tenant) (rb : RandomBytes) (o : Oracles)
    (rec : List (String × JsVal))
    (hmem : Event.savePost rec ∈ (postSysAdmin body rb o).events) :
    verifyUserDoesntExist (tenantWithId body rb) o.getPool = Except.ok () ∧
    (∃ resp pool, o.register = Except.ok resp ∧
      resp.data.pool = some pool ∧ pool.UserPool.isSome = true ∧
      resp.data.identityPool.isSome = true ∧ resp.data.role.isSome = true ∧
      resp.data.policy.isSome = true) ∧
    (∃ t2, registerTenantAdmin (tenantWithId body rb) o.register = Except.ok t2 ∧
      rec = saveRecordOf t2 ∧
      (postSysAdmin body rb o).events =
        [Event.getPool (tenantWithId body rb).userName,
         Event.registerPost (regPayloadOf (tenantWithId body rb)),
         Event.savePost rec]) := by
  rcases postSysAdmin_events_shape body rb o with
    ⟨u, hv, hev⟩ | ⟨hv, ⟨u, hr, hev⟩ | ⟨t2, hr, hev⟩⟩
  · rw [hev] at hmem
    simp at hmem
  · rw [hev] at hmem
    simp at hmem
  · rw [hev] at hmem
    have hrec : rec = saveRecordOf t2 := by
      simp only [List.mem_cons, List.not_mem_nil, or_false] at hmem
      rcases hmem with h | h | h
      · exact Event.noConfusion h
      · exact Event.noConfusion h
      · injection h with h
    obtain ⟨resp2, hp2, hex⟩ := register_ok_inv _ _ _ hr
    obtain ⟨pool2, up2, ip2, ro2, po2, h1, h2, h3, h4, h5, ht2⟩ := extract_ok_inv _ _ _ hex
    subst hrec
    refine ⟨hv, ⟨resp2, pool2, hp2, h1, ?_, ?_, ?_, ?_⟩, ⟨t2, hr, rfl, hev⟩⟩
    · rw [h2]
      rfl
    · rw [h3]
      rfl
    · rw [h4]
      rfl
    · rw [h5]
      rfl

/-- C7 witness: the theorem applied to the concrete successful run. -/
theorem c7_persistence_after_registration_witness :
    verifyUserDoesntExist (tenantWithId sampleBody zeroBytes) happyOracles.getPool =
      Except.ok () ∧
    (∃ resp pool, happyOracles.register = Except.ok resp ∧
      resp.data.pool = some pool ∧ pool.UserPool.isSome = true ∧
      resp.data.identityPool.isSome = true ∧ resp.data.role.isSome = true ∧
      resp.data.policy.isSome = true) ∧
    (∃ t2, registerTenantAdmin (tenantWithId sampleBody zeroBytes) happyOracles.register =
        Except.ok t2 ∧
      saveRecordOf enrichedTenant = saveRecordOf t2 ∧
      (postSysAdmin sampleBody zeroBytes happyOracles).events =
        [Event.getPool (tenantWithId sampleBody zeroBytes).userName,
         Event.registerPost (regPayloadOf (tenantWithId sampleBody zeroBytes)),
         Event.savePost (saveRecordOf enrichedTenant)]) :=
  c7_persistence_after_registration sampleBody zeroBytes happyOracles
    (saveRecordOf enrichedTenant) (by decide)

/-- C9 counterexample: an `OPTIONS` request is answered with status 200 but
not with an empty body — Express's deprecated `res.send(200)` form sends
the status message `"OK"` as the body. -/
theorem c9_options_body_not_empty :
    (corsMiddleware "OPTIONS").shortCircuit =
      some { status := 200, body := RespBody.text "OK" } ∧
    RespBody.text "OK" ≠ RespBody.text "" := by
  exact ⟨rfl, by decide⟩

/-- C9 (amended): every request gets the permissive CORS headers; an
`OPTIONS` request is short-circuited with status 200 and body `"OK"` (the
status message sent by `res.send(200)`), and no other method is
short-circuited by the CORS middleware. -/
theorem c9_cors_and_options (m : String) :
    ("Access-Control-Allow-Origin", "*") ∈ (corsMiddleware m).headers ∧
    ("Access-Control-Allow-Methods", "GET, POST, OPTIONS, PUT, PATCH, DELETE") ∈
      (corsMiddleware m).headers ∧
    (m = "OPTIONS" →
      (corsMiddleware m).shortCircuit = some { status := 200, body := RespBody.text "OK" }) ∧
    (m ≠ "OPTIONS" → (corsMiddleware m).shortCircuit = none) := by
  refine ⟨?_, ?_, ?_, ?_⟩
  · simp [corsMiddleware, corsHeaders]
  · simp [corsMiddleware, corsHeaders]
  · intro h; simp [corsMiddleware, h, resSend200]
  · intro h; simp [corsMiddleware, h]

/-- C9 witness: the amended theorem applied to the `OPTIONS` method. -/
theorem c9_cors_and_options_witness :
    (corsMiddleware "OPTIONS").shortCircuit =
      some { status := 200, body := RespBody.text "OK" } :=
  (c9_cors_and_options "OPTIONS").2.2.1 rfl

theorem mem_stripHyphens (s : String) (c : Char) (h : c ∈ (stripHyphens s).data) :
    c ∈ s.data ∧ c ≠ '-' := by
  unfold stripHyphens at h
  simp only [List.mem_filter, decide_eq_true_eq] at h
  exact h

theorem stripHyphens_prepend (l : List Char) :
    stripHyphens ("SYSADMIN" ++ String.mk l) = "SYSADMIN" ++ stripHyphens (String.mk l) := by
  unfold stripHyphens
  show String.mk (("SYSADMIN".data ++ l).filter (fun c => c ≠ '-')) =
    "SYSADMIN" ++ String.mk (l.filter (fun c => c ≠ '-'))
  rw [List.filter_append]
  rfl

theorem hexChar_fin : ∀ m : Fin 16, isHexChar (hexChar m.val) = true := by decide

theorem hexChar_mod (n : Nat) : isHexChar (hexChar (n % 16)) = true :=
  hexChar_fin ⟨n % 16, by omega⟩

theorem hexChar_divmod (n : Nat) : isHexChar (hexChar (n / 16 % 16)) = true :=
  hexChar_fin ⟨n / 16 % 16, by omega⟩

theorem byteHex_mem (b : Nat) (c : Char) (h : c ∈ byteHex b) : isHexChar c = true := by
  simp only [byteHex, List.mem_cons, List.not_mem_nil, or_false] at h
  rcases h with rfl | rfl
  · exact hexChar_divmod b
  · exact hexChar_mod b

theorem uuid_chars (rb : RandomBytes) (c : Char) (h : c ∈ (uuidV4 rb).data) :
    c = '-' ∨ isHexChar c = true := by
  simp only [uuidV4, List.mem_append, List.mem_singleton] at h
  rcases h with ((((((((((((((((((h | h) | h) | h) | h) | h) | h) | h) | h) | h) | h) | h) | h) | h) | h) | h) | h) | h) | h) | h
  all_goals first
    | exact Or.inl h
    | exact Or.inr (byteHex_mem _ _ h)

/-- C6: every generated tenant identifier is the `SYSADMIN` prefix followed by
hyphenless lower-case hexadecimal text, and contains no hyphen character
anywhere. -/
theorem c6_tenant_id_format (rb : RandomBytes) :
    (∃ s, makeTenantId rb = "SYSADMIN" ++ s ∧ ∀ c ∈ s.data, isHexChar c = true) ∧
    (∀ c ∈ (makeTenantId rb).data, c ≠ '-') := by
  constructor
  · refine ⟨stripHyphens (uuidV4 rb), stripHyphens_prepend (uuidV4 rb).data, ?_⟩
    intro c hc
    have h2 := mem_stripHyphens _ _ hc
    rcases uuid_chars rb c h2.1 with h | h
    · exact absurd h h2.2
    · exact h
  · intro c hc
    exact (mem_stripHyphens _ _ hc).2

/-- C6 witness: the theorem applied to the zero-bytes identifier and a
concrete character of it. -/
theorem c6_tenant_id_format_witness :
    'S' ∈ (makeTenantId zeroBytes).data ∧ 'S' ≠ '-' :=
  ⟨by decide, (c6_tenant_id_format zeroBytes).2 'S' (by decide)⟩

end SysReg
